import Mathlib

/-!
Shallow embedding of the gorilla/websocket connection adapter
(`GorillaWebsocketConnectionAdapter` and its helper functions) in Lean 4.

Modelling choices:
* The underlying `*websocket.Conn` is opaque: only its identity matters here.
* Go errors are modelled by an inductive `GoErr` that keeps the exact message
  strings produced by `fmt.Errorf` in the source, distinguishes `ctx.Err()`,
  wrapped errors (`%w`), gorilla close errors and the adapter's
  `wsconnadapter.WebsocketCloseError` struct.
* A pending ping request is a Go channel (`chan error`); in the model it is a
  numeric slot id.  Whether a non-blocking send to that channel succeeds
  (its Ping caller is still blocked on the receive) is given by a
  `waiting : Nat → Bool` map describing the instant of the notification scan.
* The channel-of-channels `pingRequests` (buffered, capacity 10) is a FIFO
  `List Nat` together with the constant `pingQueueCapacity`.
* Blocking `select` statements are modelled by explicit choice parameters,
  guarded by a validity predicate stating when each branch is enabled.
* The happens-before ordering claims are settled over explicit event traces
  emitted by the modelled operations.
-/

namespace Gowsclient

/-- Opaque model of the underlying `*websocket.Conn`. -/
structure Conn where
  id : Nat
deriving DecidableEq, Repr

/-- Model of Go error values produced or returned by the adapter code. -/
inductive GoErr where
  /-- `fmt.Errorf(msg)` without wrapping. -/
  | errorf (msg : String)
  /-- `fmt.Errorf(msg + ": %w", cause)`. -/
  | wrapped (msg : String) (cause : GoErr)
  /-- `ctx.Err()`: the caller's context is done. -/
  | ctxErr
  /-- A `*websocket.CloseError` surfaced by the gorilla library. -/
  | gorillaClose (code : Int) (text : String)
  /-- `wsconnadapter.WebsocketCloseError{Code, Reason, Err}`. -/
  | wsCloseError (code : Int) (reason : String) (cause : GoErr)
  /-- Opaque transport-level I/O error. -/
  | transport (tag : Nat)
deriving DecidableEq, Repr

/-- Models gorilla's `(*CloseError).Error()` string for a close error with
status `code` and close text `text` (third-party dependency of the source;
only its shape matters: it embeds the code and, when non-empty, the text). -/
def gorillaCloseErrString (code : Int) (text : String) : String :=
  "websocket: close " ++ toString code ++ (if text = "" then "" else ": " ++ text)

/-- Capacity of the `pingRequests` buffered channel, fixed at construction:
`make(chan chan error, 10)` in `NewGorillaWebsocketConnectionAdapter`. -/
def pingQueueCapacity : Nat := 10

/-- Mutable state of a `GorillaWebsocketConnectionAdapter`: the bound
connection (`conn *websocket.Conn`, `nil` ≅ `none`) and the FIFO content of
the `pingRequests` buffered channel (slot ids of pending ping requests). -/
structure AdapterState where
  conn : Option Conn
  pingRequests : List Nat
deriving DecidableEq, Repr

/-- `NewGorillaWebsocketConnectionAdapter`: no connection bound, empty
pending-ping queue. -/
def NewGorillaWebsocketConnectionAdapter : AdapterState :=
  { conn := none, pingRequests := [] }

/-- `propagateToFirstActiveListener`: repeatedly take the head slot of the
queue; if its caller still accepts a non-blocking send (`waiting s`), deliver
`notification` to it and stop; otherwise discard the slot and continue; stop
when the queue is empty.  Returns the remaining queue and the list of
`(slot, value)` deliveries performed (at most one). -/
def propagateToFirstActiveListener (waiting : Nat → Bool)
    (notification : Option GoErr) : List Nat → List Nat × List (Nat × Option GoErr)
  | [] => ([], [])
  | s :: rest =>
      if waiting s then (rest, [(s, notification)])
      else propagateToFirstActiveListener waiting notification rest

/-- `propagateToAllActiveListener` exactly as written in the source: the
inner `select` executes `return` (not `continue`) after a successful
non-blocking send, so the loop stops after the first delivery. -/
def propagateToAllActiveListener (waiting : Nat → Bool)
    (notification : Option GoErr) : List Nat → List Nat × List (Nat × Option GoErr)
  | [] => ([], [])
  | s :: rest =>
      if waiting s then (rest, [(s, notification)])
      else propagateToAllActiveListener waiting notification rest

/-- `propagateToAllActiveListener` as its documentation and call sites intend
(deliver to every slot whose caller is still waiting, discard the rest):
reference definition used to exhibit the divergence of the source. -/
def propagateToAllActiveListenerIntended (waiting : Nat → Bool)
    (notification : Option GoErr) : List Nat → List Nat × List (Nat × Option GoErr)
  | [] => ([], [])
  | s :: rest =>
      let (q, d) := propagateToAllActiveListenerIntended waiting notification rest
      if waiting s then (q, (s, notification) :: d) else (q, d)

/-- `pongHandler`: propagate a `nil` notification (success) to the first
active listener. -/
def pongHandler (waiting : Nat → Bool) (st : AdapterState) :
    AdapterState × List (Nat × Option GoErr) :=
  let (q, d) := propagateToFirstActiveListener waiting none st.pingRequests
  ({ st with pingRequests := q }, d)

/-- `closeHandler(code, text)`: propagate a `WebsocketCloseError` built from
the received close frame, via `propagateToAllActiveListener`. -/
def closeHandler (waiting : Nat → Bool) (code : Int) (text : String)
    (st : AdapterState) : AdapterState × List (Nat × Option GoErr) :=
  let (q, d) := propagateToAllActiveListener waiting
    (some (.wsCloseError code text (.errorf "close message received from server")))
    st.pingRequests
  ({ st with pingRequests := q }, d)

/-- `Dial(ctx, target)`: shortcut on a done context; fail if a connection is
already bound; otherwise bind the handshake's connection on success.
`outcome` models `dialer.DialContext` (consulted only when reached), `resp`
the handshake response returned alongside either result. -/
def Dial (st : AdapterState) (ctxDone : Bool) (outcome : Except GoErr Conn) :
    AdapterState × Option GoErr :=
  if ctxDone then (st, some .ctxErr)
  else
    match st.conn with
    | some _ => (st, some (.errorf "a connection has already been established"))
    | none =>
        match outcome with
        | .error e => (st, some e)
        | .ok c => ({ st with conn := some c }, none)

/-- Result triple of `Read`: `(MessageType, []byte, error)`.  `MessageType`
is an integer type in the source; a `nil` payload is `none`. -/
structure ReadRet where
  msgType : Int
  msg : Option (List UInt8)
  err : Option GoErr
deriving DecidableEq, Repr

/-- What `conn.ReadMessage()` yields: a data message, a
`*websocket.CloseError`, or some other error. -/
inductive ReadOutcome where
  | msg (msgType : Int) (payload : List UInt8)
  | closeFrame (code : Int) (text : String)
  | otherErr (e : GoErr)
deriving DecidableEq, Repr

/-- `Read(ctx)`: shortcut on a done context; fail if unbound; on a
`*websocket.CloseError` from the transport, drop the connection and return a
`WebsocketCloseError{Code: ce.Code, Reason: err.Error(), Err: err}`; other
errors are returned as-is; otherwise return the message. -/
def Read (st : AdapterState) (ctxDone : Bool) (outcome : ReadOutcome) :
    AdapterState × ReadRet :=
  if ctxDone then (st, ⟨-1, none, some .ctxErr⟩)
  else
    match st.conn with
    | none => (st, ⟨-1, none, some (.errorf "read failed because no connection is already up")⟩)
    | some _ =>
        match outcome with
        | .msg t payload => (st, ⟨t, some payload, none⟩)
        | .closeFrame code text =>
            ({ st with conn := none },
             ⟨-1, none, some (.wsCloseError code (gorillaCloseErrString code text)
                (.gorillaClose code text))⟩)
        | .otherErr e => (st, ⟨-1, none, some e⟩)

/-- `Write(ctx, msgType, msg)`: shortcut on a done context; fail if unbound;
otherwise return the result of `conn.WriteMessage` (modelled by `sendErr`). -/
def Write (st : AdapterState) (ctxDone : Bool) (sendErr : Option GoErr) :
    AdapterState × Option GoErr :=
  if ctxDone then (st, some .ctxErr)
  else
    match st.conn with
    | none => (st, some (.errorf "write failed because no connection is already up"))
    | some _ => (st, sendErr)

/-- Events of a `Close` execution, in the order the source performs them. -/
inductive CloseEvent where
  /-- `conn.WriteControl(websocket.CloseMessage, ...)`. -/
  | sendCloseFrame
  /-- `propagateToAllActiveListener(adapter.pingRequests, ...)`. -/
  | notifyWaiters
  /-- `adapter.conn = nil`. -/
  | clearConn
deriving DecidableEq, Repr

/-- `Close(ctx, code, reason)`: fail if unbound (the context is not
consulted); otherwise attempt the close-frame send (`sendErr` models its
result), propagate a locally-closed `WebsocketCloseError` to pending pings,
void the connection in any case, and return the send result. -/
def Close (st : AdapterState) (code : Int) (reason : String)
    (waiting : Nat → Bool) (sendErr : Option GoErr) :
    AdapterState × Option GoErr × List CloseEvent :=
  match st.conn with
  | none => (st, some (.errorf "close failed because no connection is already up"), [])
  | some _ =>
      let (q, _) := propagateToAllActiveListener waiting
        (some (.wsCloseError code reason (.errorf "client closed the connection")))
        st.pingRequests
      ({ conn := none, pingRequests := q }, sendErr,
       [.sendCloseFrame, .notifyWaiters, .clearConn])

/-- Events of a `Ping` execution, in source order. -/
inductive PingEvent where
  /-- `adapter.pingRequests <- pong`: the reply slot is enqueued. -/
  | register
  /-- `conn.WriteControl(websocket.PingMessage, ...)` is attempted. -/
  | sendFrame
  /-- The final `select` waiting on the pong channel or the context. -/
  | waitReply
deriving DecidableEq, Repr

/-- Resolution of `Ping`'s final `select`: the context ends first, or the
pong channel delivers a notification (`nil` on pong, an error on close). -/
inductive WaitChoice where
  | ctxDone
  | reply (notification : Option GoErr)
deriving DecidableEq, Repr

/-- Branch taken by the registration `select`
(`adapter.pingRequests <- pong` vs `<-ctx.Done()`). -/
inductive RegisterChoice where
  | registered
  | ctxDone
deriving DecidableEq, Repr

/-- Scheduling inputs of one `Ping` execution: whether the entry `select`
sees a done context, which branch the registration `select` takes, the result
of the ping-frame `WriteControl`, and how the final wait resolves. -/
structure PingInput where
  ctxDoneAtEntry : Bool
  regChoice : RegisterChoice
  sendErr : Option GoErr
  wait : WaitChoice
deriving DecidableEq, Repr

/-- Enabledness of the modelled `select` branches: the send on the buffered
`pingRequests` channel is ready only when the queue is below capacity (no
concurrent receiver is modelled), and the `<-ctx.Done()` branch only fires
on a context that ends. -/
def PingInput.valid (st : AdapterState) (inp : PingInput) : Prop :=
  inp.regChoice = .registered → st.pingRequests.length < pingQueueCapacity

/-- `Ping(ctx)`: shortcut on a done context; fail if unbound; register the
reply slot (or return `ctx.Err()` if the registration `select` resolves to
the context); send the ping frame, wrapping a failure as
`fmt.Errorf("ping failed: %w", err)` without removing the slot; then wait
for the pong notification or the context.  Returns the new state, the
returned error and the event trace. -/
def Ping (st : AdapterState) (slot : Nat) (inp : PingInput) :
    AdapterState × Option GoErr × List PingEvent :=
  if inp.ctxDoneAtEntry then (st, some .ctxErr, [])
  else
    match st.conn with
    | none => (st, some (.errorf "ping failed because no connection is already up"), [])
    | some _ =>
        match inp.regChoice with
        | .ctxDone => (st, some .ctxErr, [])
        | .registered =>
            let st' := { st with pingRequests := st.pingRequests ++ [slot] }
            match inp.sendErr with
            | some e => (st', some (.wrapped "ping failed" e), [.register, .sendFrame])
            | none =>
                match inp.wait with
                | .ctxDone => (st', some .ctxErr, [.register, .sendFrame, .waitReply])
                | .reply r => (st', r, [.register, .sendFrame, .waitReply])

/-- The spec's `AlreadyBoundError`: `Dial`'s already-bound failure message. -/
def AlreadyBoundError : GoErr := .errorf "a connection has already been established"

/-- The spec's `NotBoundError` family: each operation's unbound failure
message, `"<op> failed because no connection is already up"`. -/
def NotBoundError (op : String) : GoErr :=
  .errorf (op ++ " failed because no connection is already up")

/-- The spec's `ContextError`: `ctx.Err()`. -/
def ContextError : GoErr := .ctxErr

/-- Scanning a queue whose leading slots are all abandoned and whose first
waiting slot is `s` delivers to `s` alone, discards the skipped slots, and
leaves the tail untouched. -/
theorem propagateToFirst_skips_then_delivers (waiting : Nat → Bool)
    (notification : Option GoErr) (q₁ q₂ : List Nat) (s : Nat)
    (h₁ : ∀ t ∈ q₁, waiting t = false) (hs : waiting s = true) :
    propagateToFirstActiveListener waiting notification (q₁ ++ s :: q₂) =
      (q₂, [(s, notification)]) := by
  induction q₁ with
  | nil => simp [propagateToFirstActiveListener, hs]
  | cons a as ih =>
      have ha : waiting a = false := h₁ a (by simp)
      simpa [propagateToFirstActiveListener, ha] using
        ih (fun t ht => h₁ t (by simp [ht]))

/-- C1: the claim says the teardown notification is delivered to every
currently-waiting pending Ping slot.  The source's
`propagateToAllActiveListener` executes `return` (not `continue`) after its
first successful non-blocking send, so with two waiting slots only the first
is released: `Close` leaves the second slot pending in the queue.  The
intended all-recipients behaviour (matching the function's own name and doc
comment) would release both. -/
theorem C1_propagateToAll_stops_at_first_waiter :
    propagateToAllActiveListener (fun _ => true)
        (some (.wsCloseError 1000 "bye" (.errorf "client closed the connection"))) [0, 1] =
      ([1], [(0, some (.wsCloseError 1000 "bye" (.errorf "client closed the connection")))]) ∧
    propagateToAllActiveListenerIntended (fun _ => true)
        (some (.wsCloseError 1000 "bye" (.errorf "client closed the connection"))) [0, 1] =
      ([], [(0, some (.wsCloseError 1000 "bye" (.errorf "client closed the connection"))),
            (1, some (.wsCloseError 1000 "bye" (.errorf "client closed the connection")))]) ∧
    (Close ⟨some ⟨0⟩, [0, 1]⟩ 1000 "bye" (fun _ => true) none).1.pingRequests = [1] := by
  refine ⟨rfl, rfl, rfl⟩

/-- C2: one pong satisfies exactly one pending Ping: `pongHandler` scans the
queue in order, discards the leading slots whose callers gave up, delivers
the `nil` (success) notification to the first slot whose caller still waits,
and leaves every remaining slot pending in the queue. -/
theorem C2_pong_satisfies_exactly_one (waiting : Nat → Bool) (st : AdapterState)
    (q₁ q₂ : List Nat) (s : Nat) (hq : st.pingRequests = q₁ ++ s :: q₂)
    (h₁ : ∀ t ∈ q₁, waiting t = false) (hs : waiting s = true) :
    pongHandler waiting st = ({ st with pingRequests := q₂ }, [(s, none)]) := by
  simp [pongHandler, hq, propagateToFirst_skips_then_delivers waiting none q₁ q₂ s h₁ hs]

/-- Witness for C2: queue `[0, 1, 2]`, caller of slot 0 gave up, slot 1 is
delivered the pong, slot 2 stays pending. -/
theorem C2_pong_satisfies_exactly_one_witness :
    pongHandler (fun n => decide (0 < n)) ⟨some ⟨0⟩, [0, 1, 2]⟩ =
      (⟨some ⟨0⟩, [2]⟩, [(1, none)]) :=
  C2_pong_satisfies_exactly_one (fun n => decide (0 < n)) ⟨some ⟨0⟩, [0, 1, 2]⟩
    [0] [2] 1 rfl (by decide) (by decide)

/-- C3: `Dial` on a bound adapter fails with `AlreadyBoundError` leaving the
bound connection in place, whatever the handshake outcome would be; `Write`,
`Read`, `Ping` and `Close` on an unbound adapter fail with their
`NotBoundError`; `Close` and `Read`-observing-a-close leave the adapter
unbound; a fresh `Dial` from the unbound state binds the new connection. -/
theorem C3_bound_unbound_discipline (st : AdapterState) (c : Conn) :
    (st.conn = some c → ∀ outcome, Dial st false outcome = (st, some AlreadyBoundError)) ∧
    (st.conn = none →
      (∀ sendErr, Write st false sendErr = (st, some (NotBoundError "write"))) ∧
      (∀ outcome, Read st false outcome =
        (st, ⟨-1, none, some (NotBoundError "read")⟩)) ∧
      (∀ slot inp, inp.ctxDoneAtEntry = false →
        Ping st slot inp = (st, some (NotBoundError "ping"), [])) ∧
      (∀ code reason waiting sendErr, Close st code reason waiting sendErr =
        (st, some (NotBoundError "close"), []))) ∧
    (st.conn = some c → ∀ code reason waiting sendErr,
      (Close st code reason waiting sendErr).1.conn = none) ∧
    (st.conn = some c → ∀ code text,
      (Read st false (.closeFrame code text)).1.conn = none) ∧
    (st.conn = none → ∀ c2, (Dial st false (.ok c2)).1.conn = some c2) := by
  refine ⟨fun hb outcome => ?_, fun hn => ⟨fun sendErr => ?_, fun outcome => ?_,
    fun slot inp hctx => ?_, fun code reason waiting sendErr => ?_⟩,
    fun hb code reason waiting sendErr => ?_, fun hb code text => ?_, fun hn c2 => ?_⟩
  · simp [Dial, hb, AlreadyBoundError]
  · simp [Write, hn, NotBoundError]
  · simp [Read, hn, NotBoundError]
  · simp [Ping, hn, hctx, NotBoundError]
  · simp [Close, hn, NotBoundError]
  · simp [Close, hb]
  · simp [Read, hb]
  · simp [Dial, hn]

/-- Witness for C3 at concrete states: a bound adapter refuses a second
`Dial`, and an unbound adapter refuses `Write`. -/
theorem C3_bound_unbound_discipline_witness :
    Dial ⟨some ⟨5⟩, []⟩ false (.ok ⟨7⟩) = (⟨some ⟨5⟩, []⟩, some AlreadyBoundError) ∧
    Write ⟨none, []⟩ false none = (⟨none, []⟩, some (NotBoundError "write")) :=
  ⟨(C3_bound_unbound_discipline ⟨some ⟨5⟩, []⟩ ⟨5⟩).1 rfl (.ok ⟨7⟩),
   ((C3_bound_unbound_discipline ⟨none, []⟩ ⟨5⟩).2.1 rfl).1 none⟩

/-- C4: when the transport read yields a close notification, `Read` unbinds
the connection and returns a `WebsocketCloseError` carrying the close status
code and, as its reason, the close error's message string (which embeds the
close reason text); any other read failure is returned as-is (unwrapped) and
the connection stays bound. -/
theorem C4_read_close_vs_transport (st : AdapterState) (c : Conn)
    (hc : st.conn = some c) :
    (∀ code text, Read st false (.closeFrame code text) =
      ({ st with conn := none },
       ⟨-1, none, some (.wsCloseError code (gorillaCloseErrString code text)
          (.gorillaClose code text))⟩)) ∧
    (∀ e, Read st false (.otherErr e) = (st, ⟨-1, none, some e⟩)) ∧
    (∀ code text, text ≠ "" →
      gorillaCloseErrString code text =
        "websocket: close " ++ toString code ++ (": " ++ text)) := by
  refine ⟨fun code text => ?_, fun e => ?_, fun code text ht => ?_⟩
  · simp [Read, hc]
  · simp [Read, hc]
  · simp [gorillaCloseErrString, ht]

/-- Witness for C4: a remote close with code 1006 unbinds and is structured;
a transport error is passed through with the connection kept. -/
theorem C4_read_close_vs_transport_witness :
    Read ⟨some ⟨3⟩, [4]⟩ false (.closeFrame 1006 "gone") =
      (⟨none, [4]⟩, ⟨-1, none, some (.wsCloseError 1006 "websocket: close 1006: gone"
         (.gorillaClose 1006 "gone"))⟩) ∧
    Read ⟨some ⟨3⟩, [4]⟩ false (.otherErr (.transport 9)) =
      (⟨some ⟨3⟩, [4]⟩, ⟨-1, none, some (.transport 9)⟩) := by
  have h := C4_read_close_vs_transport ⟨some ⟨3⟩, [4]⟩ ⟨3⟩ rfl
  exact ⟨by rw [h.1 1006 "gone"]; rfl, h.2.1 (.transport 9)⟩

/-- C5: on a bound adapter, `Close` clears the connection handle
unconditionally — also when the close-frame send fails — still returns the
transmission result, and its event trace places the waiter notification
after the send attempt and before the handle is cleared. -/
theorem C5_close_unbinds_unconditionally (st : AdapterState) (c : Conn)
    (hc : st.conn = some c) (code : Int) (reason : String)
    (waiting : Nat → Bool) (sendErr : Option GoErr) :
    (Close st code reason waiting sendErr).1.conn = none ∧
    (Close st code reason waiting sendErr).2.1 = sendErr ∧
    (Close st code reason waiting sendErr).2.2 =
      [.sendCloseFrame, .notifyWaiters, .clearConn] := by
  refine ⟨?_, ?_, ?_⟩ <;> simp [Close, hc]

/-- Witness for C5: the close-frame send fails with a transport error, yet
the connection is unbound and the error is returned. -/
theorem C5_close_unbinds_unconditionally_witness :
    (Close ⟨some ⟨1⟩, [0]⟩ 1001 "away" (fun _ => false) (some (.transport 2))).1.conn
      = none ∧
    (Close ⟨some ⟨1⟩, [0]⟩ 1001 "away" (fun _ => false) (some (.transport 2))).2.1
      = some (.transport 2) ∧
    (Close ⟨some ⟨1⟩, [0]⟩ 1001 "away" (fun _ => false) (some (.transport 2))).2.2
      = [.sendCloseFrame, .notifyWaiters, .clearConn] :=
  C5_close_unbinds_unconditionally ⟨some ⟨1⟩, [0]⟩ ⟨1⟩ rfl 1001 "away"
    (fun _ => false) (some (.transport 2))

/-- C6: in every `Ping` execution whose trace contains the frame
transmission, the trace starts with the slot registration followed by the
transmission — registration happens-before sending — and the registered slot
is present in the pending queue of the resulting state. -/
theorem C6_register_before_send (st : AdapterState) (slot : Nat) (inp : PingInput)
    (h : PingEvent.sendFrame ∈ (Ping st slot inp).2.2) :
    (∃ rest, (Ping st slot inp).2.2 = PingEvent.register :: PingEvent.sendFrame :: rest) ∧
    slot ∈ (Ping st slot inp).1.pingRequests := by
  unfold Ping at *
  rcases inp with ⟨ctxe, reg, sendErr, wait⟩
  cases ctxe <;> simp_all
  cases hconn : st.conn <;> simp_all
  cases reg <;> simp_all
  cases sendErr <;> simp_all
  cases wait <;> simp_all

/-- Witness for C6: a successful ping run registers slot 7 before sending. -/
theorem C6_register_before_send_witness :
    (∃ rest, (Ping ⟨some ⟨0⟩, []⟩ 7 ⟨false, .registered, none, .reply none⟩).2.2 =
      PingEvent.register :: PingEvent.sendFrame :: rest) ∧
    7 ∈ (Ping ⟨some ⟨0⟩, []⟩ 7 ⟨false, .registered, none, .reply none⟩).1.pingRequests :=
  C6_register_before_send ⟨some ⟨0⟩, []⟩ 7 ⟨false, .registered, none, .reply none⟩
    (by decide)

/-- C7: the pending-ping queue's capacity is the constant 10 fixed at
construction; from a state where the queue already holds 10 slots, no valid
execution of `Ping` can take the registration branch, so every completing
execution returns `ContextError` (its own context ended) with the queue
unchanged — registration neither enqueues, drops, nor grows the queue. -/
theorem C7_full_queue_blocks_registration (st : AdapterState) (c : Conn)
    (hc : st.conn = some c) (slot : Nat) (inp : PingInput)
    (hv : inp.valid st) (hfull : st.pingRequests.length = pingQueueCapacity) :
    pingQueueCapacity = 10 ∧
    NewGorillaWebsocketConnectionAdapter.pingRequests = [] ∧
    Ping st slot inp = (st, some ContextError, []) := by
  refine ⟨rfl, rfl, ?_⟩
  rcases inp with ⟨ctxe, reg, sendErr, wait⟩
  cases ctxe
  · cases reg
    · exact absurd (hv rfl) (by simp [hfull])
    · simp [Ping, hc, ContextError]
  · simp [Ping, ContextError]

/-- Witness for C7: a queue of 10 slots is full; the blocked 11th
registration completes only through its context ending. -/
theorem C7_full_queue_blocks_registration_witness :
    Ping ⟨some ⟨0⟩, [0, 1, 2, 3, 4, 5, 6, 7, 8, 9]⟩ 10
        ⟨false, .ctxDone, none, .ctxDone⟩ =
      (⟨some ⟨0⟩, [0, 1, 2, 3, 4, 5, 6, 7, 8, 9]⟩, some ContextError, []) :=
  (C7_full_queue_blocks_registration ⟨some ⟨0⟩, [0, 1, 2, 3, 4, 5, 6, 7, 8, 9]⟩ ⟨0⟩
    rfl 10 ⟨false, .ctxDone, none, .ctxDone⟩ (fun h => by cases h) rfl).2.2

/-- C8: a `Ping` whose context is already done at entry returns
`ContextError` with an empty event trace — no registration, no frame sent,
no reply wait — and the adapter state unchanged. -/
theorem C8_ping_already_cancelled (st : AdapterState) (slot : Nat)
    (inp : PingInput) (h : inp.ctxDoneAtEntry = true) :
    Ping st slot inp = (st, some ContextError, []) := by
  simp [Ping, h, ContextError]

/-- Witness for C8 on a concrete bound adapter. -/
theorem C8_ping_already_cancelled_witness :
    Ping ⟨some ⟨2⟩, [4]⟩ 5 ⟨true, .registered, none, .reply none⟩ =
      (⟨some ⟨2⟩, [4]⟩, some ContextError, []) :=
  C8_ping_already_cancelled ⟨some ⟨2⟩, [4]⟩ 5 ⟨true, .registered, none, .reply none⟩ rfl

/-- C9: every `Read` execution that returns an error — done context, unbound
adapter, transport close, or other read failure — returns message type `-1`
and a `nil` payload. -/
theorem C9_read_error_sentinel (st : AdapterState) (ctxDone : Bool)
    (outcome : ReadOutcome) (h : (Read st ctxDone outcome).2.err ≠ none) :
    (Read st ctxDone outcome).2.msgType = -1 ∧
    (Read st ctxDone outcome).2.msg = none := by
  unfold Read at *
  cases ctxDone <;> simp_all
  cases hconn : st.conn <;> simp_all
  cases outcome <;> simp_all

/-- Witness for C9: a read on an unbound adapter errs with `(-1, nil)`. -/
theorem C9_read_error_sentinel_witness :
    (Read ⟨none, []⟩ false (.msg 1 [])).2.err ≠ none ∧
    (Read ⟨none, []⟩ false (.msg 1 [])).2.msgType = -1 ∧
    (Read ⟨none, []⟩ false (.msg 1 [])).2.msg = none :=
  ⟨by decide, C9_read_error_sentinel ⟨none, []⟩ false (.msg 1 []) (by decide)⟩

/-- C10: when the ping-frame send fails after the slot was enqueued, `Ping`
returns the wrapped error immediately, the trace shows no dequeue, and the
registered slot remains at the back of the queue consuming one capacity
unit; a later notification scan reaching that slot (whose caller is no
longer waiting) discards it without delivering. -/
theorem C10_failed_send_leaves_slot (st : AdapterState) (c : Conn)
    (hc : st.conn = some c) (slot : Nat) (e : GoErr) (wait : WaitChoice)
    (hcap : st.pingRequests.length < pingQueueCapacity) :
    Ping st slot ⟨false, .registered, some e, wait⟩ =
      ({ st with pingRequests := st.pingRequests ++ [slot] },
       some (.wrapped "ping failed" e), [.register, .sendFrame]) ∧
    (∀ waiting notification rest, waiting slot = false →
      propagateToFirstActiveListener waiting notification (slot :: rest) =
        propagateToFirstActiveListener waiting notification rest) ∧
    (∀ waiting notification rest, waiting slot = false →
      propagateToAllActiveListener waiting notification (slot :: rest) =
        propagateToAllActiveListener waiting notification rest) := by
  refine ⟨by simp [Ping, hc], fun waiting notification rest hw => ?_,
    fun waiting notification rest hw => ?_⟩
  · simp [propagateToFirstActiveListener, hw]
  · simp [propagateToAllActiveListener, hw]

/-- Witness for C10: the failed send leaves slot 3 queued; a pong scan then
discards it. -/
theorem C10_failed_send_leaves_slot_witness :
    Ping ⟨some ⟨0⟩, [2]⟩ 3 ⟨false, .registered, some (.transport 1), .ctxDone⟩ =
      (⟨some ⟨0⟩, [2, 3]⟩, some (.wrapped "ping failed" (.transport 1)),
       [.register, .sendFrame]) ∧
    propagateToFirstActiveListener (fun _ => false) none [3] =
      propagateToFirstActiveListener (fun _ => false) none [] := by
  have h := C10_failed_send_leaves_slot ⟨some ⟨0⟩, [2]⟩ ⟨0⟩ rfl 3 (.transport 1)
    .ctxDone (by decide)
  exact ⟨h.1, h.2.1 (fun _ => false) none [] rfl⟩

end Gowsclient
